import Mathlib

/-!
# Parkmaster Service — verification of the spec against the source

Shallow embedding of the Parkmaster backend (Calvin CS262 Team I).
The repository contains two Express server variants over the same Azure
PostgreSQL project:

* `src/server.js` — the `pg`-pool server ("pg server" below);
* `src/unnamed/part_001` — the `pg-promise` server ("pgp server" below);
* `src/unnamed/part_000`, `src/unnamed/part_002` — SQL schema
  (reference file and `setup-database.js`).

Request handlers are embedded as pure functions from an explicit database
state and a request body to an HTTP response (status code plus returned
payload) and a successor state.  SQL `TIME` values are minutes since
midnight (`Nat`), `DATE` values are absolute day indices (`Nat`, weekday
taken modulo 7), and timestamps are an abstract `Nat` clock passed to each
handler for `created_at` / `updated_at` columns.  JSONB columns that the
handlers treat as opaque blobs (`spaces`, `merged_aisles`,
`recurring_days`) are given concrete list representations, which is sound
because no handler ever inspects them.  Database `CHECK` constraints are
modelled where a claim depends on them (the `schedules.status` check); the
`UNIQUE(email)` constraint on `users` is modelled inside `createUser`.
Transient store failures are outside the model.
-/

namespace Parkmaster

/-- A row of `parking_lots` (schema in `src/unnamed/part_002`): `id`,
`name`, `rows`, `cols`, `spaces JSONB`, `merged_aisles JSONB`,
`created_at`, `updated_at`. -/
structure Lot where
  id : Nat
  name : String
  rows : Int
  cols : Int
  spaces : List (Int × Int)
  mergedAisles : List (Int × Int)
  createdAt : Nat
  updatedAt : Nat
deriving Repr, DecidableEq

/-- A row of `spots` (reference schema in `src/unnamed/part_000`): the pg
server never touches this table, which is what claim C4's frame condition
is about. -/
structure Spot where
  id : Nat
  parkingLotId : Option Nat
  spotNumber : String
  rowNumber : Option Int
  colNumber : Option Int
  status : String
deriving Repr, DecidableEq

/-- A row of `schedules` (schema in `src/unnamed/part_002`). -/
structure Schedule where
  id : Nat
  userId : Option Nat
  parkingLotId : Option Nat
  spotNumber : Option String
  startTime : Nat
  endTime : Nat
  date : Nat
  isRecurring : Bool
  recurringDays : Option (List Nat)
  location : Option String
  parkingLot : Option String
  status : String
  createdAt : Nat
  updatedAt : Nat
deriving Repr, DecidableEq

/-- A row of `users` (schema in `src/unnamed/part_000`, pgp variant with
`password_hash`). -/
structure User where
  id : Nat
  name : String
  email : String
  phone : Option String
  passwordHash : String
  role : String
  department : String
  status : String
  avatar : Option String
  createdAt : Nat
  updatedAt : Nat
deriving Repr, DecidableEq

/-- The column list the pgp server's user queries return
(`SELECT id, name, email, phone, role, department, status, avatar,
created_at FROM users`): no `password_hash`, no `updated_at`. -/
structure UserView where
  id : Nat
  name : String
  email : String
  phone : Option String
  role : String
  department : String
  status : String
  avatar : Option String
  createdAt : Nat
deriving Repr, DecidableEq

def viewOfUser (u : User) : UserView :=
  { id := u.id, name := u.name, email := u.email, phone := u.phone,
    role := u.role, department := u.department, status := u.status,
    avatar := u.avatar, createdAt := u.createdAt }

/-- JavaScript truthiness of an optional string body field:
`undefined`/`null` and the empty string are falsy. -/
def jsTruthy (o : Option String) : Bool :=
  !(o.getD "" == "")

/-- JavaScript truthiness of an optional numeric body field: absent and
`0` are falsy; every other integer (negatives included) is truthy. -/
def jsTruthyInt (o : Option Int) : Bool :=
  match o with
  | none => false
  | some n => !(n == 0)

/-- `String.prototype.toLowerCase()` as used on e-mail addresses,
character by character. -/
def jsToLowerCase (s : String) : String :=
  ⟨s.data.map Char.toLower⟩

/-- Database state seen by the pg server (`src/server.js`). -/
structure PgDb where
  lots : List Lot
  spots : List Spot
  schedules : List Schedule
  nextLotId : Nat
  nextScheduleId : Nat
deriving Repr, DecidableEq

/-- Database state seen by the pgp server (`src/unnamed/part_001`). -/
structure PgpDb where
  users : List User
  schedules : List Schedule
  nextUserId : Nat
  nextScheduleId : Nat
deriving Repr, DecidableEq

/-! ## pg server (`src/server.js`) handlers -/

/-- Body of `POST /api/parking-lots` (`src/server.js` lines 140–180). -/
structure LotReq where
  name : Option String
  rows : Option Int
  cols : Option Int
  spaces : Option (List (Int × Int))
  mergedAisles : Option (List (Int × Int))
deriving Repr, DecidableEq

/-- The row inserted by `POST /api/parking-lots`:
`INSERT INTO parking_lots (name, rows, cols, spaces, merged_aisles)` with
`JSON.stringify(spaces || [])` defaults. -/
def lotRow (db : PgDb) (r : LotReq) (now : Nat) : Lot :=
  { id := db.nextLotId, name := r.name.getD "", rows := r.rows.getD 0,
    cols := r.cols.getD 0, spaces := r.spaces.getD [],
    mergedAisles := r.mergedAisles.getD [], createdAt := now,
    updatedAt := now }

/-- `POST /api/parking-lots` (`src/server.js` lines 140–180): reject 400
when `!name || !rows || !cols`; otherwise insert and return 201 with the
row.  No geometry validation of any kind. -/
def createParkingLot (db : PgDb) (r : LotReq) (now : Nat) :
    (Nat × Option Lot) × PgDb :=
  if !(jsTruthy r.name) || !(jsTruthyInt r.rows) || !(jsTruthyInt r.cols) then
    ((400, none), db)
  else
    ((201, some (lotRow db r now)),
     { db with lots := db.lots ++ [lotRow db r now],
               nextLotId := db.nextLotId + 1 })

/-- Body of `PUT /api/parking-lots/:id` (`src/server.js` lines 182–223);
the handler passes every field straight to the UPDATE, so the embedding
takes them as present. -/
structure LotUpdate where
  name : String
  rows : Int
  cols : Int
  spaces : List (Int × Int)
  mergedAisles : List (Int × Int)
deriving Repr, DecidableEq

/-- The per-row effect of the `UPDATE parking_lots SET ...` statement:
overwrite every layout column, stamp `updated_at`. -/
def applyLotUpdate (id : Nat) (r : LotUpdate) (now : Nat) (l : Lot) : Lot :=
  if l.id == id then
    { l with name := r.name, rows := r.rows, cols := r.cols,
             spaces := r.spaces, mergedAisles := r.mergedAisles,
             updatedAt := now }
  else l

/-- `PUT /api/parking-lots/:id` (`src/server.js` lines 182–223):
unconditional `UPDATE ... WHERE id = $6 RETURNING *`; 404 only when no row
matched.  The handler never reads the `schedules` table. -/
def updateParkingLot (db : PgDb) (id : Nat) (r : LotUpdate) (now : Nat) :
    (Nat × Option Lot) × PgDb :=
  if db.lots.any (fun l => l.id == id) then
    ((200, (db.lots.map (applyLotUpdate id r now)).find? (fun l => l.id == id)),
     { db with lots := db.lots.map (applyLotUpdate id r now) })
  else
    ((404, none), db)

/-- Body of `POST /api/schedules` on the pg server (`src/server.js`
lines 389–426). -/
structure ScheduleReq where
  userId : Option Nat
  parkingLotId : Option Nat
  spotNumber : Option String
  startTime : Nat
  endTime : Nat
  date : Nat
  location : Option String
  parkingLot : Option String
  isRecurring : Bool
  recurringDays : Option (List Nat)
deriving Repr, DecidableEq

/-- The row inserted by the pg server's `POST /api/schedules`: every body
field verbatim, `status` hard-coded to the literal `'pending'` in the SQL
(`VALUES ($1, ..., $10, 'pending')`). -/
def pgScheduleRow (db : PgDb) (r : ScheduleReq) (now : Nat) : Schedule :=
  { id := db.nextScheduleId, userId := r.userId,
    parkingLotId := r.parkingLotId, spotNumber := r.spotNumber,
    startTime := r.startTime, endTime := r.endTime, date := r.date,
    isRecurring := r.isRecurring, recurringDays := r.recurringDays,
    location := r.location, parkingLot := r.parkingLot,
    status := "pending", createdAt := now, updatedAt := now }

/-- `POST /api/schedules` on the pg server (`src/server.js` lines
389–426): a bare INSERT with no validation — no time-range check, no
conflict check, no spot lookup — answered 201 with the row. -/
def pgCreateSchedule (db : PgDb) (r : ScheduleReq) (now : Nat) :
    (Nat × Option Schedule) × PgDb :=
  ((201, some (pgScheduleRow db r now)),
   { db with schedules := db.schedules ++ [pgScheduleRow db r now],
             nextScheduleId := db.nextScheduleId + 1 })

/-! ## pgp server (`src/unnamed/part_001`) handlers -/

/-- Body of `POST /api/schedules` on the pgp server (`src/unnamed/part_001`
lines 376–383); pg-promise requires every named placeholder to be present,
`status` included. -/
structure PgpScheduleReq where
  userId : Option Nat
  parkingLotId : Option Nat
  spotNumber : Option String
  startTime : Nat
  endTime : Nat
  date : Nat
  isRecurring : Bool
  recurringDays : Option (List Nat)
  location : Option String
  parkingLot : Option String
  status : String
deriving Repr, DecidableEq

/-- The `schedules.status` CHECK constraint
(`status IN ('pending','active','completed','cancelled')`). -/
def allowedScheduleStatus (s : String) : Bool :=
  s == "pending" || s == "active" || s == "completed" || s == "cancelled"

/-- The row inserted by the pgp server's `POST /api/schedules`: every body
field verbatim, `status` **taken from the request body**. -/
def pgpScheduleRow (db : PgpDb) (r : PgpScheduleReq) (now : Nat) : Schedule :=
  { id := db.nextScheduleId, userId := r.userId,
    parkingLotId := r.parkingLotId, spotNumber := r.spotNumber,
    startTime := r.startTime, endTime := r.endTime, date := r.date,
    isRecurring := r.isRecurring, recurringDays := r.recurringDays,
    location := r.location, parkingLot := r.parkingLot,
    status := r.status, createdAt := now, updatedAt := now }

/-- `POST /api/schedules` on the pgp server (`src/unnamed/part_001` lines
376–383): bare `INSERT ... RETURNING id` answered 201; a body status
outside the CHECK constraint makes the INSERT itself fail, which the
handler reports as a 500 with nothing inserted. -/
def pgpCreateSchedule (db : PgpDb) (r : PgpScheduleReq) (now : Nat) :
    (Nat × Option Nat) × PgpDb :=
  if allowedScheduleStatus r.status then
    ((201, some db.nextScheduleId),
     { db with schedules := db.schedules ++ [pgpScheduleRow db r now],
               nextScheduleId := db.nextScheduleId + 1 })
  else
    ((500, none), db)

/-- `DELETE /api/schedules/:id` (`src/unnamed/part_001` lines 395–400):
`DELETE FROM schedules WHERE id=... RETURNING id` through `oneOrNone`,
so 200 with the id when a row was deleted and 404 otherwise.  The row is
physically removed. -/
def deleteSchedule (db : PgpDb) (id : Nat) : (Nat × Option Nat) × PgpDb :=
  if db.schedules.any (fun s => s.id == id) then
    ((200, some id),
     { db with schedules := db.schedules.filter (fun s => !(s.id == id)) })
  else
    ((404, none), db)

/-- `GET /api/users/:id` (`src/unnamed/part_001` lines 156–162): select
the view columns, 404 when no row matches. -/
def getUser (db : PgpDb) (id : Nat) : Nat × Option UserView :=
  match db.users.find? (fun u => u.id == id) with
  | some u => (200, some (viewOfUser u))
  | none => (404, none)

/-- `DELETE /api/users/:id` (`src/unnamed/part_001` lines 236–244): the
handler is commented "soft delete - set status to inactive", but its query
text `UPDATE users SET status=${"inactive"} WHERE id=${id} RETURNING id`
is malformed: `${"inactive"}` is not a valid pg-promise named parameter
(names are limited to letters, digits, `$`, `_` and `.`), so the quoted
token is never substituted and the query errors at runtime on every call.
The rejection lands in `handleError`, which forwards it to the global
error handler: the client always receives a 500 and no row is updated. -/
def deleteUser (db : PgpDb) (_id : Nat) (_now : Nat) :
    (Nat × Option Nat) × PgpDb :=
  ((500, none), db)

/-- Body of `POST /api/users` (`src/unnamed/part_001` lines 173–219). -/
structure CreateUserReq where
  name : Option String
  email : Option String
  phone : Option String
  password : Option String
  role : Option String
  department : Option String
  status : Option String
  avatar : Option String
deriving Repr, DecidableEq

/-- The row inserted by `POST /api/users`: e-mail lowercased, `phone` and
`avatar` defaulted to null when falsy, `department` to `'General'`,
`status` to `'active'`; the password is stored as its bcrypt hash (the
hash function is an external collaborator, passed in). -/
def newUserRow (hash : String → String) (db : PgpDb) (r : CreateUserReq)
    (now : Nat) : User :=
  { id := db.nextUserId, name := r.name.getD "",
    email := jsToLowerCase (r.email.getD ""),
    phone := if jsTruthy r.phone then r.phone else none,
    passwordHash := hash (r.password.getD ""),
    role := r.role.getD "",
    department := if jsTruthy r.department then r.department.getD "" else "General",
    status := if jsTruthy r.status then r.status.getD "" else "active",
    avatar := if jsTruthy r.avatar then r.avatar else none,
    createdAt := now, updatedAt := now }

/-- `POST /api/users` (`src/unnamed/part_001` lines 173–219): 400 when
`!name || !email || !role || !password`; then
`SELECT id FROM users WHERE email = $1` **with the submitted e-mail as
given** and 409 when it finds a row; otherwise INSERT with the e-mail
lowercased and answer 201 with the returned view columns.  The
`UNIQUE(email)` table constraint can still reject the INSERT (the check
used the raw e-mail, the INSERT the lowercased one), which surfaces as a
500 with nothing inserted. -/
def createUser (hash : String → String) (db : PgpDb) (r : CreateUserReq)
    (now : Nat) : (Nat × Option UserView) × PgpDb :=
  if !(jsTruthy r.name) || !(jsTruthy r.email) || !(jsTruthy r.role)
      || !(jsTruthy r.password) then
    ((400, none), db)
  else
    match db.users.find? (fun u => u.email == r.email.getD "") with
    | some _ => ((409, none), db)
    | none =>
      if db.users.any (fun u => u.email == jsToLowerCase (r.email.getD "")) then
        ((500, none), db)
      else
        ((201, some (viewOfUser (newUserRow hash db r now))),
         { db with users := db.users ++ [newUserRow hash db r now],
                   nextUserId := db.nextUserId + 1 })

/-! ## Occurrence, overlap and occupancy semantics

The repository has no conflict-checking code path and no occupancy
endpoint; the spec supplies them as the design of record (§4.3, §4.4, §9).
The definitions below are therefore modelled from the spec and are used to
state what the stored handlers do and do not guarantee. -/

/-- Modelled from the spec: a schedule is "in effect" on a calendar date —
"A non-recurring: only its `date`; A recurring: every date ≥ its creation
date whose weekday is in `recurringDays`" (§4.3).  The repository has no
such code; the schedule's stored `date` anchors its recurrence and
weekdays are day indices modulo 7. -/
def occursOn (sch : Schedule) (d : Nat) : Bool :=
  if sch.isRecurring then
    decide (sch.date ≤ d) && (sch.recurringDays.getD []).contains (d % 7)
  else
    sch.date == d

/-- Modelled from the spec: half-open time-interval intersection,
"time intervals `[startTime,endTime)` intersect" so back-to-back bookings
do not conflict (§4.3). -/
def timesOverlap (a b : Schedule) : Bool :=
  decide (a.startTime < b.endTime) && decide (b.startTime < a.endTime)

/-- Modelled from the spec: two schedules conflict on date `d` when they
claim the same spot, both are in effect on `d`, and their time intervals
intersect (§4.3, glossary "Conflict"). -/
def conflictOn (a b : Schedule) (d : Nat) : Bool :=
  (a.spotNumber == b.spotNumber) && occursOn a d && occursOn b d
    && timesOverlap a b

/-- Modelled from the spec: a schedule covers the instant given by date
`d` and time-of-day `t` when it is in effect on `d` and `t` lies in
`[startTime, endTime)` (§4.4 "active for that spot at time at"). -/
def scheduleCovers (sch : Schedule) (d t : Nat) : Bool :=
  occursOn sch d && decide (sch.startTime ≤ t) && decide (t < sch.endTime)

/-- The four statuses the occupancy projection reports (§4.4). -/
inductive OccStatus where
  | available
  | reserved
  | occupied
  | disabled
deriving Repr, DecidableEq

/-- Modelled from the spec: the repository has no
`GET /lots/{id}/occupancy` endpoint; `occupancyOf` follows §4.4 —
`disabled` if manually disabled; else `occupied` / `reserved` if any
schedule is active / pending for that spot at the queried instant (active
wins over pending); else `available`.  A pure read. -/
def occupancyOf (spots : List Spot) (schedules : List Schedule)
    (lotId : Nat) (d t : Nat) (label : String) : OccStatus :=
  if spots.any (fun sp => sp.parkingLotId == some lotId
      && sp.spotNumber == label && sp.status == "disabled") then
    .disabled
  else if schedules.any (fun sch => sch.parkingLotId == some lotId
      && sch.spotNumber == some label && sch.status == "active"
      && scheduleCovers sch d t) then
    .occupied
  else if schedules.any (fun sch => sch.parkingLotId == some lotId
      && sch.spotNumber == some label && sch.status == "pending"
      && scheduleCovers sch d t) then
    .reserved
  else
    .available

/-! ## Concrete fixtures used by the claim-level theorems -/

/-- An empty pg database (fresh `setup-database.js` run, sample data
removed by `database-cleanup.js`). -/
def emptyPgDb : PgDb :=
  { lots := [], spots := [], schedules := [], nextLotId := 1,
    nextScheduleId := 1 }

/-- An empty pgp database. -/
def emptyPgpDb : PgpDb :=
  { users := [], schedules := [], nextUserId := 1, nextScheduleId := 1 }

/-- A well-formed one-shot booking request: spot `A1` of lot 1 on day 0,
09:00–10:30. -/
def reqC1 : ScheduleReq :=
  { userId := some 1, parkingLotId := some 1, spotNumber := some "A1",
    startTime := 540, endTime := 630, date := 0, location := none,
    parkingLot := none, isRecurring := false, recurringDays := none }

/-- A stored pending schedule with id 1 (spot `A1`, day 0, 09:00–10:00). -/
def schedC2 : Schedule :=
  { id := 1, userId := some 1, parkingLotId := some 1,
    spotNumber := some "A1", startTime := 540, endTime := 600, date := 0,
    isRecurring := false, recurringDays := none, location := none,
    parkingLot := none, status := "pending", createdAt := 0,
    updatedAt := 0 }

/-- A pgp database holding exactly the schedule `schedC2`. -/
def dbC2 : PgpDb :=
  { users := [], schedules := [schedC2], nextUserId := 1,
    nextScheduleId := 2 }

/-- A booking request with inverted times: start 10:00, end 09:00. -/
def reqC3 : ScheduleReq :=
  { userId := some 1, parkingLotId := some 1, spotNumber := some "A1",
    startTime := 600, endTime := 540, date := 0, location := none,
    parkingLot := none, isRecurring := false, recurringDays := none }

/-- A pgp booking request whose body carries `status: 'active'`. -/
def reqC4 : PgpScheduleReq :=
  { userId := some 1, parkingLotId := some 1, spotNumber := some "A1",
    startTime := 540, endTime := 600, date := 0, isRecurring := false,
    recurringDays := none, location := none, parkingLot := none,
    status := "active" }

/-- A lot-creation body with invalid geometry: `rows = -1` and a
duplicated, out-of-bounds aisle coordinate. -/
def reqC5 : LotReq :=
  { name := some "Bad Lot", rows := some (-1), cols := some 5,
    spaces := some [], mergedAisles := some [(9, 9), (9, 9)] }

/-- The spec's resize example: a 4×10 lot. -/
def lotC6 : Lot :=
  { id := 1, name := "North Lot", rows := 4, cols := 10, spaces := [],
    mergedAisles := [], createdAt := 0, updatedAt := 0 }

/-- An active schedule on the spot at coordinate (3,9) of `lotC6`. -/
def schedC6 : Schedule :=
  { id := 1, userId := some 1, parkingLotId := some 1,
    spotNumber := some "R3C9", startTime := 540, endTime := 600,
    date := 0, isRecurring := false, recurringDays := none,
    location := none, parkingLot := some "North Lot", status := "active",
    createdAt := 0, updatedAt := 0 }

/-- pg database for the resize example: `lotC6` with its spot at (3,9)
and the active schedule `schedC6` on that spot. -/
def dbC6 : PgDb :=
  { lots := [lotC6],
    spots := [{ id := 1, parkingLotId := some 1, spotNumber := "R3C9",
                rowNumber := some 3, colNumber := some 9,
                status := "available" }],
    schedules := [schedC6], nextLotId := 2, nextScheduleId := 2 }

/-- The resize body shrinking `lotC6` to 3×10 (removing row 3). -/
def updC6 : LotUpdate :=
  { name := "North Lot", rows := 3, cols := 10, spaces := [],
    mergedAisles := [] }

/-- A manually disabled spot `A1` of lot 1. -/
def spotC8 : Spot :=
  { id := 1, parkingLotId := some 1, spotNumber := "A1",
    rowNumber := some 0, colNumber := some 0, status := "disabled" }

/-- An active schedule on spot `A1` of lot 1 covering day 3, 09:00–10:00. -/
def schedC8 : Schedule :=
  { id := 1, userId := some 1, parkingLotId := some 1,
    spotNumber := some "A1", startTime := 540, endTime := 600, date := 3,
    isRecurring := false, recurringDays := none, location := none,
    parkingLot := none, status := "active", createdAt := 0,
    updatedAt := 0 }

/-- An existing active user row with id 1. -/
def userC9 : User :=
  { id := 1, name := "Max Wu", email := "max.wu@calvin.edu",
    phone := some "+1-616-555-1234", passwordHash := "h0", role := "user",
    department := "Operations", status := "active", avatar := none,
    createdAt := 0, updatedAt := 0 }

/-- A pgp database holding exactly the user `userC9`. -/
def dbC9 : PgpDb :=
  { users := [userC9], schedules := [], nextUserId := 2,
    nextScheduleId := 1 }

/-- A concrete stand-in for the external bcrypt hash (used only to
instantiate witnesses; every theorem is proved for an arbitrary hash). -/
def hashC10 (s : String) : String :=
  String.append "hashed:" s

/-- A signup body whose e-mail exactly matches the stored `userC9`
e-mail. -/
def reqC10 : CreateUserReq :=
  { name := some "Max Clone", email := some "max.wu@calvin.edu",
    phone := none, password := some "pw", role := some "user",
    department := none, status := none, avatar := none }

/-! ## Helper lemmas -/

/-- Filtering out every element satisfying `p` leaves a list on which
`p` never holds. -/
theorem any_filter_not {α : Type} (l : List α) (p : α → Bool) :
    (l.filter (fun a => !(p a))).any p = false := by
  induction l with
  | nil => rfl
  | cons a l ih =>
    cases hpa : p a with
    | true => simp [List.filter_cons, hpa, ih]
    | false => simp [List.filter_cons, hpa, ih]

/-! ## Claim-level theorems -/

/-- C1: the pg server's `POST /api/schedules` performs no conflict check.
Submitting the same one-shot booking (spot `A1`, day 0, 09:00–10:30)
twice against an empty store is accepted twice (201 both times), and the
resulting store holds two distinct non-cancelled schedules on the same
spot whose occurrences conflict on day 0 — the pairwise non-overlap
invariant is violated and no `ScheduleConflict` rejection exists. -/
theorem schedule_conflict_unchecked :
    (pgCreateSchedule emptyPgDb reqC1 0).1.1 = 201
    ∧ (pgCreateSchedule (pgCreateSchedule emptyPgDb reqC1 0).2 reqC1 0).1.1 = 201
    ∧ (∃ a ∈ (pgCreateSchedule (pgCreateSchedule emptyPgDb reqC1 0).2 reqC1 0).2.schedules,
       ∃ b ∈ (pgCreateSchedule (pgCreateSchedule emptyPgDb reqC1 0).2 reqC1 0).2.schedules,
         a.id ≠ b.id ∧ a.status ≠ "cancelled" ∧ b.status ≠ "cancelled"
           ∧ conflictOn a b 0 = true) := by
  refine ⟨rfl, rfl, ?_⟩
  refine ⟨pgScheduleRow emptyPgDb reqC1 0, by decide,
          pgScheduleRow (pgCreateSchedule emptyPgDb reqC1 0).2 reqC1 0, by decide, ?_, ?_, ?_, ?_⟩
  all_goals decide

/-- C2 (counterexample): `DELETE /api/schedules/:id` on the pgp server is
a physical delete, not a status change.  On a store holding schedule 1,
the first call answers 200 but the row is gone (no `cancelled` row
remains), and a second call answers 404 rather than a no-op 200. -/
theorem deleteSchedule_not_cancel :
    (deleteSchedule dbC2 1).1 = (200, some 1)
    ∧ (deleteSchedule dbC2 1).2.schedules = []
    ∧ (deleteSchedule (deleteSchedule dbC2 1).2 1).1.1 = 404 := by
  decide

/-- C2 (amended): `DELETE /api/schedules/:id` answers 200 with the id
exactly when a row with that id exists and physically removes every such
row; repeating the call on the resulting store always answers 404 and
changes nothing. -/
theorem deleteSchedule_hard_delete (db : PgpDb) (id : Nat) :
    (deleteSchedule db id).1.1
        = (if db.schedules.any (fun s => s.id == id) then 200 else 404)
    ∧ (deleteSchedule db id).2.schedules.any (fun s => s.id == id) = false
    ∧ deleteSchedule (deleteSchedule db id).2 id
        = ((404, none), (deleteSchedule db id).2) := by
  have h404 : ∀ (d : PgpDb),
      d.schedules.any (fun s => s.id == id) = false →
      deleteSchedule d id = ((404, none), d) := by
    intro d hd
    unfold deleteSchedule
    rw [if_neg (by simp [hd])]
  have hgone : (deleteSchedule db id).2.schedules.any (fun s => s.id == id) = false := by
    unfold deleteSchedule
    cases h : db.schedules.any (fun s => s.id == id) with
    | true => exact any_filter_not db.schedules _
    | false => exact h
  refine ⟨?_, hgone, h404 _ hgone⟩
  unfold deleteSchedule
  cases h : db.schedules.any (fun s => s.id == id) with
  | true => rfl
  | false => rfl

/-- C3 (counterexample): a booking with `startTime = 10:00 ≥ endTime =
09:00` is not rejected: the pg server answers 201 and inserts the row
with the inverted times verbatim. -/
theorem createSchedule_accepts_inverted_times :
    (pgCreateSchedule emptyPgDb reqC3 0).1.1 = 201
    ∧ (pgScheduleRow emptyPgDb reqC3 0).startTime = 600
    ∧ (pgScheduleRow emptyPgDb reqC3 0).endTime = 540
    ∧ (pgCreateSchedule emptyPgDb reqC3 0).2.schedules
        = [pgScheduleRow emptyPgDb reqC3 0] :=
  ⟨rfl, rfl, rfl, rfl⟩

/-- C3 (amended): the pg server's `POST /api/schedules` performs no
time-range validation at all: every request is answered 201 and the row
is inserted with the submitted `startTime` and `endTime` stored verbatim,
whatever their order. -/
theorem createSchedule_no_time_validation (db : PgDb) (r : ScheduleReq)
    (now : Nat) :
    (pgCreateSchedule db r now).1.1 = 201
    ∧ (pgCreateSchedule db r now).2.schedules
        = db.schedules ++ [pgScheduleRow db r now]
    ∧ (pgScheduleRow db r now).startTime = r.startTime
    ∧ (pgScheduleRow db r now).endTime = r.endTime :=
  ⟨rfl, rfl, rfl, rfl⟩

/-- C4 (counterexample): on the pgp server's `POST /api/schedules` the
persisted status comes from the request body: a body carrying
`status: 'active'` is accepted (201) and the inserted row has status
`active`, not `pending`. -/
theorem pgp_schedule_status_from_body :
    (pgpCreateSchedule emptyPgpDb reqC4 0).1.1 = 201
    ∧ (pgpCreateSchedule emptyPgpDb reqC4 0).2.schedules
        = [pgpScheduleRow emptyPgpDb reqC4 0]
    ∧ (pgpScheduleRow emptyPgpDb reqC4 0).status = "active" := by
  refine ⟨?_, ?_, rfl⟩ <;> rfl

/-- C4 (amended): the pg server (`src/server.js`) hard-codes status
`pending` on every accepted creation and touches neither the `spots` nor
the `parking_lots` table; the pgp server (`src/unnamed/part_001`)
persists whatever status the body carries (when it passes the CHECK
constraint). -/
theorem createSchedule_pending_pg_only :
    (∀ (db : PgDb) (r : ScheduleReq) (now : Nat),
        (pgCreateSchedule db r now).1.1 = 201
        ∧ (pgScheduleRow db r now).status = "pending"
        ∧ (pgCreateSchedule db r now).2.spots = db.spots
        ∧ (pgCreateSchedule db r now).2.lots = db.lots)
    ∧ (∀ (db : PgpDb) (r : PgpScheduleReq) (now : Nat),
        (pgpScheduleRow db r now).status = r.status
        ∧ (pgpCreateSchedule db r now).2.schedules
            = (if allowedScheduleStatus r.status
               then db.schedules ++ [pgpScheduleRow db r now]
               else db.schedules)) := by
  refine ⟨fun db r now => ⟨rfl, rfl, rfl, rfl⟩, fun db r now => ⟨rfl, ?_⟩⟩
  unfold pgpCreateSchedule
  cases h : allowedScheduleStatus r.status <;> simp [h]

/-- C5 (counterexample): a lot-creation body with `rows = -1` and a
duplicated out-of-bounds aisle coordinate is accepted: the pg server
answers 201 and stores the lot with `rows = -1` and the bad aisle set —
there is no `InvalidGeometry` rejection. -/
theorem createParkingLot_accepts_bad_geometry :
    (createParkingLot emptyPgDb reqC5 0).1.1 = 201
    ∧ (createParkingLot emptyPgDb reqC5 0).2.lots
        = [lotRow emptyPgDb reqC5 0]
    ∧ (lotRow emptyPgDb reqC5 0).rows = -1
    ∧ (lotRow emptyPgDb reqC5 0).mergedAisles = [(9, 9), (9, 9)] := by
  refine ⟨?_, ?_, ?_, ?_⟩ <;> rfl

/-- C5 (amended): `POST /api/parking-lots` checks only JavaScript
truthiness of `name`, `rows` and `cols` (so a missing field or a zero
dimension gives a 400 required-fields error); whenever those three are
truthy the lot is created (201) with no geometry validation — negative
dimensions and out-of-bounds or duplicated aisles included. -/
theorem createParkingLot_requires_fields_only (db : PgDb) (r : LotReq)
    (now : Nat) (hn : jsTruthy r.name = true)
    (hr : jsTruthyInt r.rows = true) (hc : jsTruthyInt r.cols = true) :
    createParkingLot db r now
      = ((201, some (lotRow db r now)),
         { db with lots := db.lots ++ [lotRow db r now],
                   nextLotId := db.nextLotId + 1 }) := by
  unfold createParkingLot
  rw [if_neg (by simp [hn, hr, hc])]

/-- C5 (witness): the amended theorem applied to the concrete
bad-geometry body `reqC5`. -/
theorem createParkingLot_requires_fields_only_witness :
    createParkingLot emptyPgDb reqC5 0
      = ((201, some (lotRow emptyPgDb reqC5 0)),
         { emptyPgDb with lots := emptyPgDb.lots ++ [lotRow emptyPgDb reqC5 0],
                          nextLotId := emptyPgDb.nextLotId + 1 }) :=
  createParkingLot_requires_fields_only emptyPgDb reqC5 0 (by decide)
    (by decide) (by decide)

/-- C6 (counterexample): the spec's resize example run against the code:
lot 1 is 4×10 and carries an active schedule on the spot at (3,9), yet
`PUT /api/parking-lots/1` with `rows = 3` answers 200 and shrinks the lot
— no `ConflictingResize` rejection, the schedule is never consulted. -/
theorem resize_ignores_schedules :
    (updateParkingLot dbC6 1 updC6 7).1.1 = 200
    ∧ (updateParkingLot dbC6 1 updC6 7).2.lots
        = [{ lotC6 with rows := 3, updatedAt := 7 }]
    ∧ schedC6 ∈ dbC6.schedules ∧ schedC6.status = "active"
    ∧ schedC6.spotNumber = some "R3C9" := by
  refine ⟨rfl, rfl, ?_, rfl, rfl⟩
  decide

/-- C6 (amended): `PUT /api/parking-lots/:id` updates unconditionally —
200 exactly when the lot exists and 404 otherwise, never 409; the
`schedules` table is neither read (the decision is the same for every
schedule set) nor written. -/
theorem updateParkingLot_unconditional (db : PgDb) (id : Nat)
    (r : LotUpdate) (now : Nat) :
    (updateParkingLot db id r now).1.1
        = (if db.lots.any (fun l => l.id == id) then 200 else 404)
    ∧ (updateParkingLot db id r now).2.schedules = db.schedules
    ∧ (∀ s, (updateParkingLot { db with schedules := s } id r now).1.1
        = (updateParkingLot db id r now).1.1) := by
  unfold updateParkingLot
  cases h : db.lots.any (fun l => l.id == id) <;> simp [h]

/-- C7: schedule creation is rejection-deterministic: on a fixed
committed store the decision (HTTP status) of `POST /api/schedules` is a
function of the request alone — it does not depend on the clock stamping
`created_at`, so two evaluations with identical input yield the identical
decision; this holds for both server variants. -/
theorem propose_decision_deterministic (db : PgDb) (r : ScheduleReq)
    (t₁ t₂ : Nat) (pdb : PgpDb) (pr : PgpScheduleReq) (u₁ u₂ : Nat) :
    (pgCreateSchedule db r t₁).1.1 = (pgCreateSchedule db r t₂).1.1
    ∧ (pgpCreateSchedule pdb pr u₁).1.1 = (pgpCreateSchedule pdb pr u₂).1.1 := by
  refine ⟨rfl, ?_⟩
  unfold pgpCreateSchedule
  cases h : allowedScheduleStatus pr.status <;> simp [h]

/-- C8: the occupancy projection is a pure read in which manual disable
takes precedence: a spot of the lot that is manually disabled is reported
`disabled` even when a schedule is active for it at the queried instant;
otherwise the spot is `occupied` when some schedule is active for it,
`reserved` when none is active but some is pending, and `available` when
neither. -/
theorem occupancyOf_disabled_precedence (spots : List Spot)
    (schedules : List Schedule) (lotId d t : Nat) (label : String) :
    ((∃ sp ∈ spots, sp.parkingLotId = some lotId ∧ sp.spotNumber = label
        ∧ sp.status = "disabled") →
      occupancyOf spots schedules lotId d t label = .disabled)
    ∧ (¬ (∃ sp ∈ spots, sp.parkingLotId = some lotId ∧ sp.spotNumber = label
          ∧ sp.status = "disabled") →
       ((∃ sch ∈ schedules, sch.parkingLotId = some lotId
            ∧ sch.spotNumber = some label ∧ sch.status = "active"
            ∧ scheduleCovers sch d t = true) →
          occupancyOf spots schedules lotId d t label = .occupied)
       ∧ (¬ (∃ sch ∈ schedules, sch.parkingLotId = some lotId
            ∧ sch.spotNumber = some label ∧ sch.status = "active"
            ∧ scheduleCovers sch d t = true) →
          (∃ sch ∈ schedules, sch.parkingLotId = some lotId
            ∧ sch.spotNumber = some label ∧ sch.status = "pending"
            ∧ scheduleCovers sch d t = true) →
          occupancyOf spots schedules lotId d t label = .reserved)
       ∧ (¬ (∃ sch ∈ schedules, sch.parkingLotId = some lotId
            ∧ sch.spotNumber = some label ∧ sch.status = "active"
            ∧ scheduleCovers sch d t = true) →
          ¬ (∃ sch ∈ schedules, sch.parkingLotId = some lotId
            ∧ sch.spotNumber = some label ∧ sch.status = "pending"
            ∧ scheduleCovers sch d t = true) →
          occupancyOf spots schedules lotId d t label = .available)) := by
  have hd : (spots.any (fun sp => sp.parkingLotId == some lotId
        && sp.spotNumber == label && sp.status == "disabled") = true)
      ↔ (∃ sp ∈ spots, sp.parkingLotId = some lotId ∧ sp.spotNumber = label
          ∧ sp.status = "disabled") := by
    simp [List.any_eq_true, and_assoc]
  have ha : (schedules.any (fun sch => sch.parkingLotId == some lotId
        && sch.spotNumber == some label && sch.status == "active"
        && scheduleCovers sch d t) = true)
      ↔ (∃ sch ∈ schedules, sch.parkingLotId = some lotId
          ∧ sch.spotNumber = some label ∧ sch.status = "active"
          ∧ scheduleCovers sch d t = true) := by
    simp [List.any_eq_true, and_assoc]
  have hp : (schedules.any (fun sch => sch.parkingLotId == some lotId
        && sch.spotNumber == some label && sch.status == "pending"
        && scheduleCovers sch d t) = true)
      ↔ (∃ sch ∈ schedules, sch.parkingLotId = some lotId
          ∧ sch.spotNumber = some label ∧ sch.status = "pending"
          ∧ scheduleCovers sch d t = true) := by
    simp [List.any_eq_true, and_assoc]
  refine ⟨fun h => ?_, fun hnd => ⟨fun h => ?_, fun hna h => ?_, fun hna hnp => ?_⟩⟩
  · unfold occupancyOf
    rw [if_pos (hd.mpr h)]
  · unfold occupancyOf
    rw [if_neg (fun hb => hnd (hd.mp hb)), if_pos (ha.mpr h)]
  · unfold occupancyOf
    rw [if_neg (fun hb => hnd (hd.mp hb)), if_neg (fun hb => hna (ha.mp hb)),
        if_pos (hp.mpr h)]
  · unfold occupancyOf
    rw [if_neg (fun hb => hnd (hd.mp hb)), if_neg (fun hb => hna (ha.mp hb)),
        if_neg (fun hb => hnp (hp.mp hb))]

/-- C8 (witness): spot `A1` is manually disabled while the schedule
`schedC8` is active and covers the queried instant (day 3, 09:10), yet
the projection reports `disabled`. -/
theorem occupancyOf_disabled_precedence_witness :
    scheduleCovers schedC8 3 550 = true ∧ schedC8.status = "active"
    ∧ occupancyOf [spotC8] [schedC8] 1 3 550 "A1" = .disabled := by
  refine ⟨by decide, rfl, ?_⟩
  exact (occupancyOf_disabled_precedence [spotC8] [schedC8] 1 3 550 "A1").1
    ⟨spotC8, by decide, rfl, rfl, rfl⟩

/-- C9: the `DELETE /api/users/:id` handler is commented as a soft delete
(set status to `inactive`), but its malformed query makes every call
answer 500 and leave the store untouched: on a store holding active user
1, the call returns 500 with no id, user 1 is still present with status
`active` (never set to `inactive`), and `GET /api/users/1` still returns
the original row — the documented soft delete never happens. -/
theorem deleteUser_always_errors :
    deleteUser dbC9 1 5 = ((500, none), dbC9)
    ∧ (deleteUser dbC9 1 5).2.users.find? (fun x => x.id == 1) = some userC9
    ∧ userC9.status = "active"
    ∧ getUser (deleteUser dbC9 1 5).2 1 = (200, some (viewOfUser userC9)) :=
  ⟨rfl, rfl, rfl, rfl⟩

/-- C10: `POST /api/users` on the pgp server answers 400 and inserts
nothing when name, e-mail, password or role is missing; answers 409 and
leaves the users table untouched when a stored user's e-mail equals the
submitted e-mail as given; and otherwise inserts exactly one row whose
e-mail is the submitted one normalized to lowercase. -/
theorem createUser_normalizes_and_guards (hash : String → String)
    (db : PgpDb) (r : CreateUserReq) (now : Nat) :
    ((!(jsTruthy r.name) || !(jsTruthy r.email) || !(jsTruthy r.role)
        || !(jsTruthy r.password)) = true →
      createUser hash db r now = ((400, none), db))
    ∧ (∀ u, (!(jsTruthy r.name) || !(jsTruthy r.email) || !(jsTruthy r.role)
          || !(jsTruthy r.password)) = false →
        db.users.find? (fun x => x.email == r.email.getD "") = some u →
        createUser hash db r now = ((409, none), db))
    ∧ ((!(jsTruthy r.name) || !(jsTruthy r.email) || !(jsTruthy r.role)
          || !(jsTruthy r.password)) = false →
        db.users.find? (fun x => x.email == r.email.getD "") = none →
        db.users.any (fun x => x.email == jsToLowerCase (r.email.getD ""))
            = false →
        createUser hash db r now
          = ((201, some (viewOfUser (newUserRow hash db r now))),
             { db with users := db.users ++ [newUserRow hash db r now],
                       nextUserId := db.nextUserId + 1 })
        ∧ (newUserRow hash db r now).email
            = jsToLowerCase (r.email.getD "")) := by
  refine ⟨fun h => ?_, fun u h hf => ?_, fun h hf ha => ?_⟩
  · unfold createUser
    rw [if_pos h]
  · unfold createUser
    rw [if_neg (by simp [h]), hf]
  · unfold createUser
    rw [if_neg (by simp [h]), hf, if_neg (by simp [ha])]
    exact ⟨rfl, rfl⟩

/-- C10 (witness): submitting the stored e-mail verbatim is refused with
409 and the table is unchanged; a fresh mixed-case e-mail is stored
lowercased. -/
theorem createUser_normalizes_and_guards_witness :
    createUser hashC10 dbC9 reqC10 0 = ((409, none), dbC9)
    ∧ (newUserRow hashC10 dbC9
        { reqC10 with email := some "New.User@Calvin.EDU" } 0).email
        = "new.user@calvin.edu" := by
  refine ⟨(createUser_normalizes_and_guards hashC10 dbC9 reqC10 0).2.1
    userC9 rfl rfl, ?_⟩
  have h := ((createUser_normalizes_and_guards hashC10 dbC9
    { reqC10 with email := some "New.User@Calvin.EDU" } 0).2.2 rfl rfl rfl).2
  rw [h]
  rfl

end Parkmaster
